import Mathlib

/-!
Shallow embedding of the optimistic job/comment synchronization layer:
the job data-access service (`jobService` in the source) and the consuming
store (`JobProvider` / `JobContext`), translated function by function.
Network and clock effects are made explicit: every service or store
operation takes the outcome of its gateway call (response, non-success
response, or thrown error) and the current clock value as parameters, and
returns the new in-memory state together with the notifications it emits.
-/

/-- Reply entity (`ReplyType`).  Fields as synthesized by the store and the
service fallback: id, owning comment, owning user, text and its `content`
mirror, timestamp, denormalized author name and avatar. -/
structure Reply where
  id : String
  userId : String
  commentId : String
  text : String
  content : String
  timestamp : Nat
  userName : String
  userPhoto : String
deriving DecidableEq, Repr

/-- Comment entity (`CommentType`).  `content` is optional: the store's
temporary comment omits it while the service fallback sets it.  `replies`
is optional, mirroring a possibly-absent array in the source. -/
structure Comment where
  id : String
  userId : String
  jobId : String
  text : String
  content : Option String
  timestamp : Nat
  userName : String
  userPhoto : String
  replies : Option (List Reply)
deriving DecidableEq, Repr

/-- Job entity (`JobType`).  `comments` is optional, mirroring the source
where the server may omit the array (`job.comments || []` guards exist at
some, not all, entry points). -/
structure Job where
  id : String
  title : String
  description : String
  category : String
  budget : Int
  status : String
  userId : String
  timestamp : Nat
  comments : Option (List Comment)
deriving DecidableEq, Repr

/-- Current authenticated user as consumed by the store (`currentUser`):
id, display name, optional avatar URL. -/
structure User where
  id : String
  name : String
  photoURL : Option String
deriving DecidableEq, Repr

/-- Decoded token payload used by the service fallback
(`JSON.parse(atob(token.split('.')[1]))`); every field may be absent. -/
structure UserInfo where
  userId : Option String
  id : Option String
  name : Option String
  photoURL : Option String
deriving DecidableEq, Repr

/-- The four fields of `Partial<JobType>` that `jobService.createJob`
validates; `none` models an absent (`undefined`) field. -/
structure JobData where
  title : Option String
  description : Option String
  category : Option String
  budget : Option Int
deriving DecidableEq, Repr

/-- JavaScript `a || b` on an optional string: an absent or empty string is
falsy and yields the fallback. -/
def jsOr (a : Option String) (b : String) : String :=
  match a with
  | none => b
  | some s => if s = "" then b else s

/-- Decimal digit characters of `n`, most significant first, with explicit
fuel (the source interpolates `Date.now()` into a template string; this is
the decimal rendering that interpolation performs). -/
def natChars : Nat → Nat → List Char
  | 0, _ => []
  | fuel + 1, n =>
    if n < 10 then [Nat.digitChar n]
    else natChars fuel (n / 10) ++ [Nat.digitChar (n % 10)]

/-- Decimal rendering of a natural number, as produced by JavaScript
template interpolation of a number. -/
def natStr (n : Nat) : String :=
  ⟨natChars (n + 1) n⟩

/-- Left inverse of `natChars`: read a decimal digit string back. -/
def decodeChars (l : List Char) : Nat :=
  l.foldl (fun acc c => acc * 10 + (c.toNat - 48)) 0

/-- The temporary-identifier test used by the store
(`c.id.startsWith('temp-')`). -/
def isTemporary (id : String) : Bool :=
  id.startsWith "temp-"

theorem decodeChars_append_singleton (l : List Char) (c : Char) :
    decodeChars (l ++ [c]) = decodeChars l * 10 + (c.toNat - 48) := by
  simp [decodeChars, List.foldl_append]

theorem digitChar_toNat_sub (d : Nat) (hd : d < 10) :
    (Nat.digitChar d).toNat - 48 = d := by
  interval_cases d <;> decide

theorem decodeChars_natChars (fuel n : Nat) (h : n < fuel) :
    decodeChars (natChars fuel n) = n := by
  induction fuel generalizing n with
  | zero => omega
  | succ fuel ih =>
    by_cases h10 : n < 10
    · simp only [natChars, if_pos h10]
      have : decodeChars [Nat.digitChar n] = (Nat.digitChar n).toNat - 48 := by
        simp [decodeChars]
      rw [this, digitChar_toNat_sub n h10]
    · simp only [natChars, if_neg h10]
      rw [decodeChars_append_singleton, ih (n / 10) (by omega),
        digitChar_toNat_sub (n % 10) (by omega)]
      omega

theorem natChars_inj (n m : Nat) (h : natChars (n + 1) n = natChars (m + 1) m) :
    n = m := by
  have hn := decodeChars_natChars (n + 1) n (by omega)
  have hm := decodeChars_natChars (m + 1) m (by omega)
  rw [← hn, ← hm, h]

theorem natStr_inj (n m : Nat) (h : natStr n = natStr m) : n = m := by
  apply natChars_inj
  have := congrArg String.data h
  simpa [natStr] using this

theorem natChars_all_digits (fuel n : Nat) (c : Char) (hc : c ∈ natChars fuel n) :
    c.toNat < 58 := by
  induction fuel generalizing n with
  | zero => simp [natChars] at hc
  | succ fuel ih =>
    by_cases h10 : n < 10
    · simp only [natChars, if_pos h10, List.mem_singleton] at hc
      subst hc
      interval_cases n <;> decide
    · simp only [natChars, if_neg h10, List.mem_append, List.mem_singleton] at hc
      rcases hc with hc | hc
      · exact ih (n / 10) hc
      · subst hc
        have : n % 10 < 10 := by omega
        interval_cases h : n % 10 <;> simp_all <;> decide

/-! ## Remote gateway service (`jobService`) -/

/-- Normalization applied by `jobService.getAllJobs` to a successful
response: every job gets a comments array, empty when the server omitted it
(`comments: job.comments || []`). -/
def normalizeJobs (jobs : List Job) : List Job :=
  jobs.map (fun job => { job with comments := some (job.comments.getD []) })

/-- Outcome of the HTTP exchange of `jobService.getAllJobs`: a response
carrying the `success` flag and the job list, or a thrown transport
error. -/
inductive GetJobsOutcome where
  | respond (success : Bool) (jobs : List Job)
  | thrown
deriving DecidableEq, Repr

/-- `jobService.getAllJobs`, as a function of the cache slot
(`localStorage['cachedJobs']`), the network outcome, and whether the
best-effort cache write succeeds.  Returns the job list handed to the
caller and the new content of the cache slot. -/
def getAllJobsService (cache : Option (List Job)) (outcome : GetJobsOutcome)
    (saveOk : Bool) : List Job × Option (List Job) :=
  match outcome with
  | .respond true jobs =>
    let jobsWithComments := normalizeJobs jobs
    (jobsWithComments, if saveOk then some jobsWithComments else cache)
  | .respond false _ =>
    match cache with
    | some cached => (cached, cache)
    | none => ([], cache)
  | .thrown =>
    match cache with
    | some cached => (cached, cache)
    | none => ([], cache)

/-- The error taxonomy surfaced by the service: a validation failure raised
before any request, or a transport/non-success failure. -/
inductive JsError where
  | validationError
  | transportError
deriving DecidableEq, Repr

/-- Outcome of the HTTP exchange of `jobService.createJob`. -/
inductive CreateOutcome where
  | respond (success : Bool) (job : Job)
  | thrown
deriving DecidableEq, Repr

/-- JavaScript falsiness of an optional string field (`!jobData.title`):
absent or empty. -/
def falsyStr (s : Option String) : Bool :=
  match s with
  | none => true
  | some v => v = ""

/-- `jobService.createJob`: validates title, description, category and a
defined budget before the request (`!title || !description || !category ||
budget === undefined`), throwing a validation error without touching the
network.  Returns the result together with a flag recording whether the
request was issued. -/
def createJobService (d : JobData) (outcome : CreateOutcome) :
    Except JsError Job × Bool :=
  if falsyStr d.title || falsyStr d.description || falsyStr d.category
      || d.budget.isNone then
    (.error .validationError, false)
  else
    match outcome with
    | .respond true job => (.ok job, true)
    | .respond false _ => (.error .transportError, true)
    | .thrown => (.error .transportError, true)

/-- Outcome of the HTTP exchange of `jobService.addComment`. -/
inductive AddCommentOutcome where
  | respond (success : Bool) (c : Comment)
  | thrown
deriving DecidableEq, Repr

/-- `jobService.addComment`.  On a successful response the server comment is
returned untouched.  On a thrown request or a non-success response the
service falls back to fabricating a local comment: id is a fresh uuid,
author fields come from the decoded token (`userInfo?.userId ||
userInfo?.id || 'unknown'` etc.), and the comment is merged into the cached
snapshot when one exists and the best-effort write succeeds.  The function
is total: no outcome makes it surface an error. -/
def addCommentService (jobId text : String) (outcome : AddCommentOutcome)
    (userInfo : Option UserInfo) (uuid : String) (now : Nat)
    (cache : Option (List Job)) (saveOk : Bool) :
    Comment × Option (List Job) :=
  match outcome with
  | .respond true c => (c, cache)
  | _ =>
    let newComment : Comment :=
      { id := uuid
        userId := jsOr (userInfo.bind (fun ui => ui.userId))
          (jsOr (userInfo.bind (fun ui => ui.id)) "unknown")
        jobId := jobId
        text := text
        content := some text
        timestamp := now
        userName := jsOr (userInfo.bind (fun ui => ui.name)) "Usuario"
        userPhoto := jsOr (userInfo.bind (fun ui => ui.photoURL)) ""
        replies := some [] }
    let newCache :=
      if saveOk then
        cache.map (fun jobs => jobs.map (fun job =>
          if job.id = jobId then
            { job with comments := some ((job.comments.getD []) ++ [newComment]) }
          else job))
      else cache
    (newComment, newCache)

/-! ## Optimistic mutation engine (`JobProvider` store) -/

/-- A user-visible toast emitted by a store operation. -/
inductive Notif where
  | success
  | failure
deriving DecidableEq, Repr

/-- Outcome of an awaited service call inside a store operation: the
resolved value, or a thrown error caught by the operation's catch block. -/
inductive CallOutcome (α : Type) where
  | ok (a : α)
  | thrown
deriving DecidableEq, Repr

/-- The store's state: canonical list plus the derived views it exposes
(`jobs`, `userJobs`, `filteredJobs`, `popularJobs`, `savedJobs`). -/
structure JobState where
  jobs : List Job
  userJobs : List Job
  filteredJobs : List Job
  popularJobs : List Job
  savedJobs : List Job
deriving DecidableEq, Repr

/-- The store's empty initial state (`useState<JobType[]>([])` five
times). -/
def initialState : JobState :=
  { jobs := [], userJobs := [], filteredJobs := [], popularJobs := [],
    savedJobs := [] }

/-- The temporary comment fabricated by the store's `addComment`
(`id: temp-<Date.now()>`, current user's identity, empty replies, no
`content` field). -/
def mkTempComment (u : User) (jobId text : String) (now : Nat) : Comment :=
  { id := "temp-" ++ natStr now
    userId := u.id
    jobId := jobId
    text := text
    content := none
    timestamp := now
    userName := u.name
    userPhoto := u.photoURL.getD ""
    replies := some [] }

/-- Immediate optimistic merge of `addComment`: append the temporary
comment to the comment array of every job whose id matches
(`[...(job.comments || []), tempComment]`). -/
def insertTempComment (jobs : List Job) (jobId : String) (temp : Comment) :
    List Job :=
  jobs.map (fun job =>
    if job.id = jobId then
      { job with comments := some ((job.comments.getD []) ++ [temp]) }
    else job)

/-- Success reconciliation of `addComment`: drop the temporary comment by
id and append the server comment
(`job.comments?.filter(c => c.id !== tempComment.id) || []` then append). -/
def replaceTempComment (jobs : List Job) (jobId tempId : String)
    (c : Comment) : List Job :=
  jobs.map (fun job =>
    if job.id = jobId then
      let filteredComments := (job.comments.getD []).filter
        (fun x => x.id ≠ tempId)
      { job with comments := some (filteredComments ++ [c]) }
    else job)

/-- The store's `addComment`: refuse without a user; otherwise merge the
temporary comment, await the service call, and either replace the
temporary comment with the server one (success toast) or keep it
(failure toast).  Only the canonical `jobs` list is touched. -/
def addCommentEngine (st : JobState) (user : Option User)
    (jobId text : String) (now : Nat) (outcome : CallOutcome Comment) :
    JobState × List Notif :=
  match user with
  | none => (st, [.failure])
  | some u =>
    let temp := mkTempComment u jobId text now
    let st1 := { st with jobs := insertTempComment st.jobs jobId temp }
    match outcome with
    | .ok c =>
      ({ st1 with jobs := replaceTempComment st1.jobs jobId temp.id c },
        [.success])
    | .thrown => (st1, [.failure])

/-- The temporary reply fabricated by the store's `addReply`
(`id: temp-reply-<Date.now()>`). -/
def mkTempReply (u : User) (commentId text : String) (now : Nat) : Reply :=
  { id := "temp-reply-" ++ natStr now
    userId := u.id
    commentId := commentId
    text := text
    content := text
    timestamp := now
    userName := u.name
    userPhoto := u.photoURL.getD "" }

/-- Immediate optimistic merge of `addReply`: append the temporary reply to
the addressed comment inside the addressed job; an absent comment array
stays absent (`job.comments?.map(...)`). -/
def insertTempReply (jobs : List Job) (jobId commentId : String)
    (temp : Reply) : List Job :=
  jobs.map (fun job =>
    if job.id = jobId then
      { job with comments := job.comments.map (fun cs => cs.map (fun c =>
          if c.id = commentId then
            { c with replies := some ((c.replies.getD []) ++ [temp]) }
          else c)) }
    else job)

/-- Success reconciliation of `addReply`: drop the temporary reply by id
and append the server reply. -/
def replaceTempReply (jobs : List Job) (jobId commentId tempId : String)
    (r : Reply) : List Job :=
  jobs.map (fun job =>
    if job.id = jobId then
      { job with comments := job.comments.map (fun cs => cs.map (fun c =>
          if c.id = commentId then
            let filteredReplies := (c.replies.getD []).filter
              (fun x => x.id ≠ tempId)
            { c with replies := some (filteredReplies ++ [r]) }
          else c)) }
    else job)

/-- The store's `addReply`: same shape as `addComment`, nested one level
deeper.  Only the canonical `jobs` list is touched. -/
def addReplyEngine (st : JobState) (user : Option User)
    (commentId jobId text : String) (now : Nat)
    (outcome : CallOutcome Reply) : JobState × List Notif :=
  match user with
  | none => (st, [.failure])
  | some u =>
    let temp := mkTempReply u commentId text now
    let st1 := { st with jobs := insertTempReply st.jobs jobId commentId temp }
    match outcome with
    | .ok r =>
      ({ st1 with jobs := replaceTempReply st1.jobs jobId commentId temp.id r },
        [.success])
    | .thrown => (st1, [.failure])

/-- The store's `deleteComment`: await the service call; if it resolves
(with either boolean!) filter the comment by id out of every job's comment
array (an absent array stays absent) and toast success; if it throws,
change nothing and toast failure.  The resolved boolean is ignored by the
source. -/
def deleteCommentEngine (st : JobState) (commentId : String)
    (outcome : CallOutcome Bool) : JobState × List Notif :=
  match outcome with
  | .ok _ =>
    ({ st with jobs := st.jobs.map (fun job =>
        { job with comments := job.comments.map (fun cs =>
            cs.filter (fun c => c.id ≠ commentId)) }) },
      [.success])
  | .thrown => (st, [.failure])

/-- The store's `deleteJob`: on a resolved `true` remove the job from
`jobs`, `userJobs` and `filteredJobs` (not from `popularJobs`) and toast
success; on a resolved `false` change nothing (the service already
toasted); on a throw change nothing and toast failure. -/
def deleteJobEngine (st : JobState) (jobId : String)
    (outcome : CallOutcome Bool) : JobState × List Notif :=
  match outcome with
  | .ok true =>
    ({ st with
        jobs := st.jobs.filter (fun job => job.id ≠ jobId)
        userJobs := st.userJobs.filter (fun job => job.id ≠ jobId)
        filteredJobs := st.filteredJobs.filter (fun job => job.id ≠ jobId) },
      [.success])
  | .ok false => (st, [])
  | .thrown => (st, [.failure])

/-- The store's `updateJob`: on a resolved job replace it by id in `jobs`,
`userJobs` and `filteredJobs` (not in `popularJobs`), installing the
server-returned job verbatim; on a resolved `null` or a throw change
nothing. -/
def updateJobEngine (st : JobState) (jobId : String)
    (outcome : CallOutcome (Option Job)) : JobState × List Notif :=
  match outcome with
  | .ok (some j) =>
    ({ st with
        jobs := st.jobs.map (fun job => if job.id = jobId then j else job)
        userJobs := st.userJobs.map (fun job => if job.id = jobId then j else job)
        filteredJobs :=
          st.filteredJobs.map (fun job => if job.id = jobId then j else job) },
      [.success])
  | .ok none => (st, [])
  | .thrown => (st, [.failure])

/-- Outcome of the fetch sequence inside the store's `refreshJobs`: the
fetched list plus (when a user is logged in) the separately fetched list of
that user's jobs, or a throw somewhere in the sequence. -/
inductive RefreshOutcome where
  | ok (allJobs : List Job) (userData : Option (List Job))
  | thrown
deriving DecidableEq, Repr

/-- The store's `refreshJobs`: on success set `jobs` and `filteredJobs` to
the fetched list, `userJobs`/`savedJobs` from the per-user fetch when
logged in, and `popularJobs` to the first 3 of the fetched list
(`allJobs.slice(0, 3)`); on a throw, reset `jobs`, `filteredJobs` and
`popularJobs` to empty and toast failure. -/
def refreshJobsEngine (st : JobState) (outcome : RefreshOutcome) :
    JobState × List Notif :=
  match outcome with
  | .ok allJobs userData =>
    ({ st with
        jobs := allJobs
        filteredJobs := allJobs
        userJobs := match userData with
          | some l => l
          | none => st.userJobs
        savedJobs := match userData with
          | some _ => []
          | none => st.savedJobs
        popularJobs := allJobs.take 3 },
      [])
  | .thrown =>
    ({ st with jobs := [], filteredJobs := [], popularJobs := [] },
      [.failure])

/-- The store's `createJob`: on a resolved created job run `refreshJobs`
and toast success; on a throw change nothing and toast failure. -/
def createJobEngine (st : JobState) (outcome : CallOutcome Job)
    (refresh : RefreshOutcome) : JobState × List Notif :=
  match outcome with
  | .ok _ =>
    let r := refreshJobsEngine st refresh
    (r.1, r.2 ++ [.success])
  | .thrown => (st, [.failure])

/-- `comments` field present (the data-model invariant of the spec). -/
def commentsPresent (j : Job) : Bool :=
  j.comments.isSome

/-- Every job of a list has its comments array present. -/
def allCommentsPresent (jobs : List Job) : Bool :=
  jobs.all commentsPresent

/-! ## Concrete sample data for scenarios -/

/-- Sample logged-in user. -/
def userU : User :=
  { id := "u1", name := "Alice", photoURL := some "p.png" }

/-- Sample pre-existing comment on job A. -/
def commentC1 : Comment :=
  { id := "c1", userId := "u2", jobId := "A", text := "hola",
    content := none, timestamp := 1, userName := "Bob", userPhoto := "",
    replies := some [] }

/-- Sample job A, carrying one comment. -/
def jobA : Job :=
  { id := "A", title := "tA", description := "dA", category := "web",
    budget := 100, status := "open", userId := "u1", timestamp := 10,
    comments := some [commentC1] }

/-- Sample job B. -/
def jobB : Job :=
  { id := "B", title := "tB", description := "dB", category := "web",
    budget := 200, status := "open", userId := "u2", timestamp := 20,
    comments := some [] }

/-- Sample job C. -/
def jobC : Job :=
  { id := "C", title := "tC", description := "dC", category := "app",
    budget := 300, status := "open", userId := "u1", timestamp := 30,
    comments := some [] }

/-- Sample job D. -/
def jobD : Job :=
  { id := "D", title := "tD", description := "dD", category := "app",
    budget := 400, status := "open", userId := "u2", timestamp := 40,
    comments := some [] }

/-! ## Claims -/

/-- Claim C1, amended: `popularJobs` is recomputed (to the first 3 of the
fetched canonical list) only by `refreshJobs` — which also runs after a
successful `createJob` — while `updateJob`, `deleteJob`, `addComment`,
`addReply` and `deleteComment` leave `popularJobs` unchanged, so after
those mutations it need not equal the first 3 of the canonical list. -/
theorem c1_popularJobs_only_refresh_recomputes
    (st : JobState) (ro : RefreshOutcome) (j : Job) (jobId text cid : String)
    (uo : Option User) (now : Nat) (oc : CallOutcome Comment)
    (orp : CallOutcome Reply) (ob odc : CallOutcome Bool)
    (oj : CallOutcome (Option Job)) :
    (refreshJobsEngine st ro).1.popularJobs
        = (refreshJobsEngine st ro).1.jobs.take 3
    ∧ (createJobEngine st (.ok j) ro).1.popularJobs
        = (createJobEngine st (.ok j) ro).1.jobs.take 3
    ∧ (createJobEngine st .thrown ro).1.popularJobs = st.popularJobs
    ∧ (updateJobEngine st jobId oj).1.popularJobs = st.popularJobs
    ∧ (deleteJobEngine st jobId ob).1.popularJobs = st.popularJobs
    ∧ (addCommentEngine st uo jobId text now oc).1.popularJobs
        = st.popularJobs
    ∧ (addReplyEngine st uo cid jobId text now orp).1.popularJobs
        = st.popularJobs
    ∧ (deleteCommentEngine st cid odc).1.popularJobs = st.popularJobs := by
  refine ⟨?_, ?_, rfl, ?_, ?_, ?_, ?_, ?_⟩
  · cases ro <;> rfl
  · cases ro <;> rfl
  · rcases oj with _ | _
    · rename_i a
      rcases a with _ | _ <;> rfl
    · rfl
  · rcases ob with _ | _
    · rename_i b
      cases b <;> rfl
    · rfl
  · rcases uo with _ | _
    · rfl
    · cases oc <;> rfl
  · rcases uo with _ | _
    · rfl
    · cases orp <;> rfl
  · cases odc <;> rfl

/-- Claim C1, counterexample to the claim as stated: starting from a
refreshed canonical list `[A, B, C, D]` (so `popularJobs = [A, B, C]`),
deleting job `B` leaves `popularJobs` at `[A, B, C]`, not at the first 3
elements `[A, C, D]` of the new canonical list. -/
theorem c1_popularJobs_stale_after_deleteJob :
    ¬ ((deleteJobEngine (refreshJobsEngine initialState
          (.ok [jobA, jobB, jobC, jobD] none)).1 "B" (.ok true)).1.popularJobs
        = (deleteJobEngine (refreshJobsEngine initialState
          (.ok [jobA, jobB, jobC, jobD] none)).1 "B"
          (.ok true)).1.jobs.take 3) := by
  decide

/-- Claim C2: if the service call of `addComment` throws, the temporary
comment — id of the form `temp-<n>`, carrying the typed text — remains in
the addressed job's comment sequence (no rollback), and exactly one
failure notification is emitted. -/
theorem c2_addComment_failure_keeps_temp
    (st : JobState) (u : User) (jobId text : String) (now : Nat) (job : Job)
    (hmem : job ∈ (addCommentEngine st (some u) jobId text now .thrown).1.jobs)
    (hid : job.id = jobId) :
    mkTempComment u jobId text now ∈ job.comments.getD []
    ∧ (mkTempComment u jobId text now).id = "temp-" ++ natStr now
    ∧ (mkTempComment u jobId text now).text = text
    ∧ (addCommentEngine st (some u) jobId text now .thrown).2
        = [Notif.failure] := by
  refine ⟨?_, rfl, rfl, rfl⟩
  simp only [addCommentEngine, insertTempComment, List.mem_map] at hmem
  obtain ⟨j0, hj0, hfe⟩ := hmem
  by_cases hcase : j0.id = jobId
  · rw [if_pos hcase] at hfe
    subst hfe
    simp
  · rw [if_neg hcase] at hfe
    subst hfe
    exact absurd hid hcase

/-- Witness for C2 at a concrete scenario: user submits "hey" on job A
while the gateway throws. -/
theorem c2_addComment_failure_keeps_temp_witness :
    mkTempComment userU "A" "hey" 7
      ∈ (((addCommentEngine { initialState with jobs := [jobA] } (some userU)
          "A" "hey" 7 .thrown).1.jobs.head?.getD jobA).comments.getD [])
    ∧ (mkTempComment userU "A" "hey" 7).id = "temp-" ++ natStr 7
    ∧ (mkTempComment userU "A" "hey" 7).text = "hey"
    ∧ (addCommentEngine { initialState with jobs := [jobA] } (some userU)
        "A" "hey" 7 .thrown).2 = [Notif.failure] :=
  c2_addComment_failure_keeps_temp { initialState with jobs := [jobA] }
    userU "A" "hey" 7 _ (by decide) (by decide)

/-- Claim C3, amended: job delete (on confirmed success) and job field
update patch `jobs`, `userJobs` and `filteredJobs` simultaneously — but not
`popularJobs` — while comment and reply mutations (`addComment`,
`addReply`, `deleteComment`) patch only the canonical `jobs` list, leaving
`userJobs`, `filteredJobs` and `popularJobs` with their previous (possibly
stale) copies. -/
theorem c3_views_patched_per_operation
    (st : JobState) (uo : Option User) (jobId text cid : String) (now : Nat)
    (oc : CallOutcome Comment) (orp : CallOutcome Reply)
    (odc : CallOutcome Bool) (j : Job) :
    (deleteJobEngine st jobId (.ok true)).1.jobs
        = st.jobs.filter (fun x => x.id ≠ jobId)
    ∧ (deleteJobEngine st jobId (.ok true)).1.userJobs
        = st.userJobs.filter (fun x => x.id ≠ jobId)
    ∧ (deleteJobEngine st jobId (.ok true)).1.filteredJobs
        = st.filteredJobs.filter (fun x => x.id ≠ jobId)
    ∧ (updateJobEngine st jobId (.ok (some j))).1.jobs
        = st.jobs.map (fun x => if x.id = jobId then j else x)
    ∧ (updateJobEngine st jobId (.ok (some j))).1.userJobs
        = st.userJobs.map (fun x => if x.id = jobId then j else x)
    ∧ (updateJobEngine st jobId (.ok (some j))).1.filteredJobs
        = st.filteredJobs.map (fun x => if x.id = jobId then j else x)
    ∧ (addCommentEngine st uo jobId text now oc).1.userJobs = st.userJobs
    ∧ (addCommentEngine st uo jobId text now oc).1.filteredJobs
        = st.filteredJobs
    ∧ (addReplyEngine st uo cid jobId text now orp).1.userJobs = st.userJobs
    ∧ (addReplyEngine st uo cid jobId text now orp).1.filteredJobs
        = st.filteredJobs
    ∧ (deleteCommentEngine st cid odc).1.userJobs = st.userJobs
    ∧ (deleteCommentEngine st cid odc).1.filteredJobs = st.filteredJobs := by
  refine ⟨rfl, rfl, rfl, rfl, rfl, rfl, ?_, ?_, ?_, ?_, ?_, ?_⟩
  · rcases uo with _ | u
    · rfl
    · cases oc <;> rfl
  · rcases uo with _ | u
    · rfl
    · cases oc <;> rfl
  · rcases uo with _ | u
    · rfl
    · cases orp <;> rfl
  · rcases uo with _ | u
    · rfl
    · cases orp <;> rfl
  · cases odc <;> rfl
  · cases odc <;> rfl

/-- Claim C3, counterexample to the claim as stated: after an optimistic
`addComment` on job A (gateway throws), the canonical list's copy of A
carries the new comment while `filteredJobs` still holds the old copy of A
— a derived view retains a stale copy of a changed job. -/
theorem c3_filteredJobs_stale_after_addComment :
    ¬ (((addCommentEngine (refreshJobsEngine initialState
          (.ok [jobA, jobB] (some [jobA]))).1 (some userU) "A" "hey" 7
          .thrown).1.jobs.filter (fun x => x.id = "A"))
        = ((addCommentEngine (refreshJobsEngine initialState
          (.ok [jobA, jobB] (some [jobA]))).1 (some userU) "A" "hey" 7
          .thrown).1.filteredJobs.filter (fun x => x.id = "A"))) := by
  decide

theorem allCommentsPresent_iff (l : List Job) :
    allCommentsPresent l = true ↔ ∀ job ∈ l, commentsPresent job = true := by
  simp [allCommentsPresent, List.all_eq_true]

theorem allCommentsPresent_map (l : List Job) (f : Job → Job)
    (hf : ∀ job, commentsPresent job = true → commentsPresent (f job) = true)
    (h : allCommentsPresent l = true) :
    allCommentsPresent (l.map f) = true := by
  rw [allCommentsPresent_iff] at h ⊢
  intro job hjob
  rw [List.mem_map] at hjob
  obtain ⟨j0, hj0, hfe⟩ := hjob
  subst hfe
  exact hf j0 (h j0 hj0)

theorem allCommentsPresent_filter (l : List Job) (p : Job → Bool)
    (h : allCommentsPresent l = true) :
    allCommentsPresent (l.filter p) = true := by
  rw [allCommentsPresent_iff] at h ⊢
  intro job hjob
  exact h job (List.mem_filter.mp hjob).1

theorem allCommentsPresent_normalizeJobs (l : List Job) :
    allCommentsPresent (normalizeJobs l) = true := by
  rw [allCommentsPresent_iff]
  intro job hjob
  rw [normalizeJobs, List.mem_map] at hjob
  obtain ⟨j0, _, hfe⟩ := hjob
  subst hfe
  rfl

/-- Claim C4, amended: every job delivered by `getAllJobs` (and hence by
`refreshJobs`) has its `comments` array present even when the server omits
it, and `addComment`, `addReply`, `deleteComment`, `deleteJob` and
`createJob` preserve presence across the canonical list; `updateJob`,
however, installs the server-returned job verbatim, so presence after it
holds only when the update response itself carries a comments array. -/
theorem c4_comments_present_except_updateJob
    (cache : Option (List Job)) (go : GetJobsOutcome) (saveOk : Bool)
    (st : JobState) (uo : Option User) (jobId text cid : String) (now : Nat)
    (oc : CallOutcome Comment) (orp : CallOutcome Reply)
    (odc ob : CallOutcome Bool) (ocj : CallOutcome Job)
    (allJobs : List Job) (ud : Option (List Job)) (j : Job)
    (hcache : allCommentsPresent (cache.getD []) = true)
    (hst : allCommentsPresent st.jobs = true)
    (hall : allCommentsPresent allJobs = true)
    (hj : commentsPresent j = true) :
    allCommentsPresent (getAllJobsService cache go saveOk).1 = true
    ∧ allCommentsPresent ((getAllJobsService cache go saveOk).2.getD []) = true
    ∧ allCommentsPresent (refreshJobsEngine st (.ok allJobs ud)).1.jobs = true
    ∧ allCommentsPresent (refreshJobsEngine st .thrown).1.jobs = true
    ∧ allCommentsPresent
        (createJobEngine st ocj (.ok allJobs ud)).1.jobs = true
    ∧ allCommentsPresent (addCommentEngine st uo jobId text now oc).1.jobs
        = true
    ∧ allCommentsPresent (addReplyEngine st uo cid jobId text now orp).1.jobs
        = true
    ∧ allCommentsPresent (deleteCommentEngine st cid odc).1.jobs = true
    ∧ allCommentsPresent (deleteJobEngine st jobId ob).1.jobs = true
    ∧ allCommentsPresent
        (updateJobEngine st jobId (.ok (some j))).1.jobs = true := by
  refine ⟨?_, ?_, hall, rfl, ?_, ?_, ?_, ?_, ?_, ?_⟩
  · rcases go with ⟨s, jobs⟩ | _
    · cases s
      · cases cache <;> simpa [getAllJobsService] using hcache
      · simpa [getAllJobsService] using allCommentsPresent_normalizeJobs jobs
    · cases cache <;> simpa [getAllJobsService] using hcache
  · rcases go with ⟨s, jobs⟩ | _
    · cases s
      · cases cache <;> simpa [getAllJobsService] using hcache
      · cases saveOk
        · simpa [getAllJobsService] using hcache
        · simpa [getAllJobsService] using allCommentsPresent_normalizeJobs jobs
    · cases cache <;> simpa [getAllJobsService] using hcache
  · rcases ocj with _ | _
    · exact hall
    · exact hst
  · rcases uo with _ | u
    · exact hst
    · rcases oc with c | _
      · simp only [addCommentEngine, replaceTempComment, insertTempComment]
        refine allCommentsPresent_map _ _ ?_ (allCommentsPresent_map _ _ ?_ hst)
        · intro job hjob
          by_cases hcase : job.id = jobId <;> simp_all [commentsPresent]
        · intro job hjob
          by_cases hcase : job.id = jobId <;> simp_all [commentsPresent]
      · simp only [addCommentEngine, insertTempComment]
        refine allCommentsPresent_map _ _ ?_ hst
        intro job hjob
        by_cases hcase : job.id = jobId <;> simp_all [commentsPresent]
  · rcases uo with _ | u
    · exact hst
    · rcases orp with r | _
      · simp only [addReplyEngine, replaceTempReply, insertTempReply]
        refine allCommentsPresent_map _ _ ?_ (allCommentsPresent_map _ _ ?_ hst)
        · intro job hjob
          by_cases hcase : job.id = jobId <;>
            simp_all [commentsPresent, Option.isSome_map]
        · intro job hjob
          by_cases hcase : job.id = jobId <;>
            simp_all [commentsPresent, Option.isSome_map]
      · simp only [addReplyEngine, insertTempReply]
        refine allCommentsPresent_map _ _ ?_ hst
        intro job hjob
        by_cases hcase : job.id = jobId <;>
          simp_all [commentsPresent, Option.isSome_map]
  · rcases odc with b | _
    · simp only [deleteCommentEngine]
      refine allCommentsPresent_map _ _ ?_ hst
      intro job hjob
      simp_all [commentsPresent, Option.isSome_map]
    · exact hst
  · rcases ob with b | _
    · cases b
      · exact hst
      · exact allCommentsPresent_filter _ _ hst
    · exact hst
  · simp only [updateJobEngine]
    refine allCommentsPresent_map _ _ ?_ hst
    intro job hjob
    by_cases hcase : job.id = jobId <;> simp [hcase]
    · exact hj
    · exact hjob

/-- Witness for C4 at concrete inputs. -/
theorem c4_comments_present_except_updateJob_witness :
    allCommentsPresent (getAllJobsService (some [jobA])
        (.respond true [jobB]) true).1 = true
    ∧ allCommentsPresent ((getAllJobsService (some [jobA])
        (.respond true [jobB]) true).2.getD []) = true
    ∧ allCommentsPresent (refreshJobsEngine initialState
        (.ok [jobA, jobB] (some [jobA]))).1.jobs = true
    ∧ allCommentsPresent (refreshJobsEngine initialState .thrown).1.jobs
        = true
    ∧ allCommentsPresent (createJobEngine initialState (.ok jobC)
        (.ok [jobA, jobB] (some [jobA]))).1.jobs = true
    ∧ allCommentsPresent (addCommentEngine initialState (some userU)
        "A" "hey" 7 .thrown).1.jobs = true
    ∧ allCommentsPresent (addReplyEngine initialState (some userU)
        "c1" "A" "hey" 7 .thrown).1.jobs = true
    ∧ allCommentsPresent (deleteCommentEngine initialState "c1"
        (.ok true)).1.jobs = true
    ∧ allCommentsPresent (deleteJobEngine initialState "A"
        (.ok true)).1.jobs = true
    ∧ allCommentsPresent (updateJobEngine initialState "A"
        (.ok (some jobC))).1.jobs = true :=
  c4_comments_present_except_updateJob (some [jobA]) (.respond true [jobB])
    true initialState (some userU) "A" "hey" "c1" 7 .thrown .thrown
    (.ok true) (.ok true) (.ok jobC) [jobA, jobB] (some [jobA]) jobC
    (by decide) (by decide) (by decide) (by decide)

/-- Sample server response job whose `comments` array is omitted. -/
def jobNoComments : Job :=
  { id := "A", title := "tA2", description := "dA2", category := "web",
    budget := 150, status := "open", userId := "u1", timestamp := 10,
    comments := none }

/-- Claim C4, counterexample to the claim as stated: `updateJob` with a
server response that omits `comments` leaves a job in the in-memory model
whose `comments` field is absent. -/
theorem c4_updateJob_installs_absent_comments :
    allCommentsPresent (updateJobEngine { initialState with jobs := [jobA] }
        "A" (.ok (some jobNoComments))).1.jobs = false := by
  decide

theorem reconcile_counts (orig : List Comment) (temp c : Comment)
    (hcid : c.id ≠ temp.id)
    (hfresh : ∀ x ∈ orig, x.id ≠ c.id) :
    (((orig ++ [temp]).filter (fun x => x.id ≠ temp.id)) ++ [c]).countP
        (fun x => x.id = c.id) = 1
    ∧ (((orig ++ [temp]).filter (fun x => x.id ≠ temp.id)) ++ [c]).countP
        (fun x => x.id = temp.id) = 0
    ∧ ∀ x ∈ ((orig ++ [temp]).filter (fun x => x.id ≠ temp.id)) ++ [c],
        x.id = c.id → x.text = c.text := by
  refine ⟨?_, ?_, ?_⟩
  · rw [List.countP_append]
    have h1 : ((orig ++ [temp]).filter (fun x => x.id ≠ temp.id)).countP
        (fun x => x.id = c.id) = 0 := by
      rw [List.countP_eq_zero]
      intro x hx
      rw [List.mem_filter] at hx
      rcases List.mem_append.mp hx.1 with hxo | hxt
      · simpa using hfresh x hxo
      · simp only [List.mem_singleton] at hxt
        subst hxt
        simpa using fun hh => hcid hh.symm
    rw [h1]
    simp
  · rw [List.countP_eq_zero]
    intro x hx
    rcases List.mem_append.mp hx with hxf | hxc
    · have := (List.mem_filter.mp hxf).2
      simpa using of_decide_eq_true this
    · simp only [List.mem_singleton] at hxc
      subst hxc
      simpa using hcid
  · intro x hx hxid
    rcases List.mem_append.mp hx with hxf | hxc
    · exfalso
      have hx1 := (List.mem_filter.mp hxf).1
      have hx2 := (List.mem_filter.mp hxf).2
      rcases List.mem_append.mp hx1 with hxo | hxt
      · exact hfresh x hxo hxid
      · simp only [List.mem_singleton] at hxt
        subst hxt
        simp at hx2
    · simp only [List.mem_singleton] at hxc
      subst hxc
      rfl

/-- Claim C5: when the service call of `addComment` resolves with a server
comment (distinct fresh id, same text), the addressed job's final comment
sequence holds exactly one comment with the server id, none with the
temporary id, and the server-id comment carries the submitted text. -/
theorem c5_addComment_success_reconciles
    (st : JobState) (u : User) (jobId text : String) (now : Nat)
    (c : Comment) (job : Job)
    (hcid : c.id ≠ (mkTempComment u jobId text now).id)
    (hfresh : ∀ jb ∈ st.jobs, jb.id = jobId →
      ∀ x ∈ jb.comments.getD [], x.id ≠ c.id)
    (htext : c.text = text)
    (hmem : job ∈ (addCommentEngine st (some u) jobId text now
      (.ok c)).1.jobs)
    (hid : job.id = jobId) :
    (job.comments.getD []).countP (fun x => x.id = c.id) = 1
    ∧ (job.comments.getD []).countP
        (fun x => x.id = (mkTempComment u jobId text now).id) = 0
    ∧ ∀ x ∈ job.comments.getD [], x.id = c.id → x.text = text := by
  simp only [addCommentEngine, replaceTempComment, insertTempComment,
    List.mem_map] at hmem
  obtain ⟨y, ⟨j0, hj0, hf1⟩, hf2⟩ := hmem
  by_cases hcase : j0.id = jobId
  · rw [if_pos hcase] at hf1
    subst hf1
    rw [if_pos (show (({ j0 with comments := some ((j0.comments.getD [])
        ++ [mkTempComment u jobId text now]) } : Job).id = jobId)
      from hcase)] at hf2
    subst hf2
    have hres := reconcile_counts (j0.comments.getD [])
      (mkTempComment u jobId text now) c hcid (hfresh j0 hj0 hcase)
    simpa [htext] using hres
  · rw [if_neg hcase] at hf1
    subst hf1
    rw [if_neg hcase] at hf2
    subst hf2
    exact absurd hid hcase

/-- Sample server-side comment returned by a successful `addComment`. -/
def serverComment : Comment :=
  { id := "s1", userId := "u1", jobId := "A", text := "hey",
    content := some "hey", timestamp := 8, userName := "Alice",
    userPhoto := "p.png", replies := some [] }

/-- Witness for C5 at a concrete scenario. -/
theorem c5_addComment_success_reconciles_witness :
    ((((addCommentEngine { initialState with jobs := [jobA] } (some userU)
        "A" "hey" 7 (.ok serverComment)).1.jobs.head?.getD
        jobA).comments.getD []).countP
        (fun x => x.id = serverComment.id)) = 1
    ∧ ((((addCommentEngine { initialState with jobs := [jobA] } (some userU)
        "A" "hey" 7 (.ok serverComment)).1.jobs.head?.getD
        jobA).comments.getD []).countP
        (fun x => x.id = (mkTempComment userU "A" "hey" 7).id)) = 0
    ∧ ∀ x ∈ (((addCommentEngine { initialState with jobs := [jobA] }
        (some userU) "A" "hey" 7 (.ok serverComment)).1.jobs.head?.getD
        jobA).comments.getD []), x.id = serverComment.id → x.text = "hey" :=
  c5_addComment_success_reconciles { initialState with jobs := [jobA] }
    userU "A" "hey" 7 serverComment _ (by decide) (by decide) rfl
    (by decide) (by decide)

/-- Claim C6, amended: `deleteComment` performs no optimistic pre-removal —
a thrown gateway call leaves the whole state unchanged (with one failure
notification) — and once the call resolves it removes the comment from
every job in the canonical list; but the resolved confirmation boolean is
ignored, so the sweep also happens when the gateway reports
non-confirmation. -/
theorem c6_deleteComment_sweeps_on_resolution
    (st : JobState) (cid : String) (b : Bool) (job : Job)
    (hmem : job ∈ (deleteCommentEngine st cid (.ok b)).1.jobs) :
    (∀ c ∈ job.comments.getD [], c.id ≠ cid)
    ∧ (deleteCommentEngine st cid .thrown).1 = st
    ∧ (deleteCommentEngine st cid .thrown).2 = [Notif.failure] := by
  refine ⟨?_, rfl, rfl⟩
  simp only [deleteCommentEngine, List.mem_map] at hmem
  obtain ⟨j0, hj0, hfe⟩ := hmem
  subst hfe
  intro c hc
  rcases hcm : j0.comments with _ | cs
  · simp [hcm] at hc
  · simp [hcm] at hc
    exact hc.2

/-- Witness for C6 at a concrete scenario: deleting comment `c1` with a
resolved gateway call sweeps it out of job A. -/
theorem c6_deleteComment_sweeps_on_resolution_witness :
    (∀ c ∈ (((deleteCommentEngine { initialState with jobs := [jobA] } "c1"
        (.ok true)).1.jobs.head?.getD jobA).comments.getD []), c.id ≠ "c1")
    ∧ (deleteCommentEngine { initialState with jobs := [jobA] } "c1"
        .thrown).1 = { initialState with jobs := [jobA] }
    ∧ (deleteCommentEngine { initialState with jobs := [jobA] } "c1"
        .thrown).2 = [Notif.failure] :=
  c6_deleteComment_sweeps_on_resolution { initialState with jobs := [jobA] }
    "c1" true _ (by decide)

/-- Claim C6, counterexample to the claim as stated: when the gateway
resolves with `success = false` (the deletion is *not* confirmed), the
store still removes the comment — the canonical list does not stay
unchanged, because the source ignores the resolved boolean. -/
theorem c6_deleteComment_ignores_confirmation :
    ¬ ((deleteCommentEngine { initialState with jobs := [jobA] } "c1"
        (.ok false)).1 = { initialState with jobs := [jobA] }) := by
  decide

/-- Claim C7: `createJob` with a missing title, description or category, or
an undefined budget, fails with a validation error before any network
request is issued (so the network is reached only when all four fields are
defined). -/
theorem c7_createJob_validates_before_network
    (d : JobData) (outcome : CreateOutcome)
    (h : d.title = none ∨ d.description = none ∨ d.category = none
      ∨ d.budget = none) :
    createJobService d outcome = (.error .validationError, false) := by
  rcases h with h | h | h | h <;> simp [createJobService, falsyStr, h]

/-- Witness for C7 at the spec's scenario: budget `undefined` with title
and description present. -/
theorem c7_createJob_validates_before_network_witness :
    createJobService
      { title := some "t", description := some "d", category := some "web",
        budget := none } .thrown = (.error .validationError, false) :=
  c7_createJob_validates_before_network _ .thrown
    (Or.inr (Or.inr (Or.inr rfl)))

/-- Claim C8: a failed fetch (thrown request or non-success response)
returns the cached snapshot when one was saved and the empty list
otherwise, leaving the cache slot untouched; a successful fetch returns
the normalized list and (when the best-effort write succeeds) overwrites
the cache slot with it, still returning the list when the write fails. -/
theorem c8_read_falls_back_to_cache
    (cache : Option (List Job)) (jobs : List Job) (saveOk : Bool) :
    (getAllJobsService cache .thrown saveOk).1 = cache.getD []
    ∧ (getAllJobsService cache (.respond false jobs) saveOk).1 = cache.getD []
    ∧ (getAllJobsService cache .thrown saveOk).2 = cache
    ∧ (getAllJobsService cache (.respond false jobs) saveOk).2 = cache
    ∧ (getAllJobsService cache (.respond true jobs) true).1
        = normalizeJobs jobs
    ∧ (getAllJobsService cache (.respond true jobs) true).2
        = some (normalizeJobs jobs)
    ∧ (getAllJobsService cache (.respond true jobs) false).1
        = normalizeJobs jobs
    ∧ (getAllJobsService cache (.respond true jobs) false).2 = cache := by
  cases cache <;> simp [getAllJobsService]

theorem temp_id_inj (pre : String) (n m : Nat)
    (h : pre ++ natStr n = pre ++ natStr m) : n = m := by
  have hd := congrArg String.data h
  simp only [String.data_append] at hd
  exact natStr_inj n m (String.ext (List.append_cancel_left hd))

theorem tempComment_ne_tempReply_id (n m : Nat) :
    "temp-" ++ natStr n ≠ "temp-reply-" ++ natStr m := by
  intro h
  have hd := congrArg String.data h
  simp only [String.data_append] at hd
  have hsplit : (['t', 'e', 'm', 'p', '-', 'r', 'e', 'p', 'l', 'y', '-']
        : List Char)
      = ['t', 'e', 'm', 'p', '-'] ++ ['r', 'e', 'p', 'l', 'y', '-'] := by
    decide
  rw [hsplit, List.append_assoc] at hd
  have hc := List.append_cancel_left hd
  have hr : ('r' : Char)
      ∈ (['r', 'e', 'p', 'l', 'y', '-'] : List Char) ++ (natStr m).data :=
    List.mem_append_left _ (by decide)
  rw [← hc] at hr
  have hlt := natChars_all_digits (n + 1) n 'r' (by simpa [natStr] using hr)
  exact absurd hlt (by decide)

/-- Claim C9, amended: every synthesized temporary identifier carries the
reserved textual tag `temp-`; identifiers of two synthesized comments (or
of two synthesized replies) differ whenever their synthesis timestamps
differ, and a comment identifier never coincides with a reply identifier;
but uniqueness is only per clock millisecond — two same-kind entities
synthesized at the same `Date.now()` value share an identifier. -/
theorem c9_temp_id_uniqueness (u1 u2 : User)
    (jid1 jid2 t1 t2 cid1 cid2 : String) (n m : Nat) (h : n ≠ m) :
    (∃ s, (mkTempComment u1 jid1 t1 n).id = "temp-" ++ s)
    ∧ (∃ s, (mkTempReply u1 cid1 t1 n).id = "temp-" ++ s)
    ∧ (mkTempComment u1 jid1 t1 n).id ≠ (mkTempComment u2 jid2 t2 m).id
    ∧ (mkTempReply u1 cid1 t1 n).id ≠ (mkTempReply u2 cid2 t2 m).id
    ∧ (mkTempComment u1 jid1 t1 n).id ≠ (mkTempReply u2 cid2 t2 m).id
    ∧ (mkTempComment u1 jid1 t1 n).id ≠ (mkTempReply u2 cid2 t2 n).id := by
  refine ⟨⟨natStr n, rfl⟩, ⟨"reply-" ++ natStr n, ?_⟩, ?_, ?_,
    tempComment_ne_tempReply_id n m, tempComment_ne_tempReply_id n n⟩
  · have hsplit2 : ("temp-" ++ "reply-" : String) = "temp-reply-" := by
      decide
    show "temp-reply-" ++ natStr n = "temp-" ++ ("reply-" ++ natStr n)
    rw [← String.append_assoc, hsplit2]
  · intro heq
    exact h (temp_id_inj "temp-" n m heq)
  · intro heq
    exact h (temp_id_inj "temp-reply-" n m heq)

/-- Witness for C9 at concrete timestamps 7 and 8. -/
theorem c9_temp_id_uniqueness_witness :
    (∃ s, (mkTempComment userU "A" "x" 7).id = "temp-" ++ s)
    ∧ (∃ s, (mkTempReply userU "c1" "x" 7).id = "temp-" ++ s)
    ∧ (mkTempComment userU "A" "x" 7).id ≠ (mkTempComment userU "B" "y" 8).id
    ∧ (mkTempReply userU "c1" "x" 7).id ≠ (mkTempReply userU "c2" "y" 8).id
    ∧ (mkTempComment userU "A" "x" 7).id ≠ (mkTempReply userU "c2" "y" 8).id
    ∧ (mkTempComment userU "A" "x" 7).id
        ≠ (mkTempReply userU "c2" "y" 7).id :=
  c9_temp_id_uniqueness userU userU "A" "B" "x" "y" "c1" "c2" 7 8 (by decide)

/-- Claim C9, counterexample to the claim as stated: two distinct
synthesized comments whose syntheses fall in the same clock millisecond
receive the *same* temporary identifier (`temp-<Date.now()>` has
millisecond resolution and carries no counter). -/
theorem c9_same_millisecond_collision :
    mkTempComment userU "A" "x" 7 ≠ mkTempComment userU "B" "y" 7
    ∧ (mkTempComment userU "A" "x" 7).id
        = (mkTempComment userU "B" "y" 7).id := by
  decide

/-- Claim C10: the gateway-level `jobService.addComment` surfaces no error
to its caller.  A successful response is returned untouched; on a thrown
request or a non-success response it fabricates and returns a local
comment carrying the submitted text and a freshly generated uuid (not a
`temp-`-tagged identifier), and merges that comment into the cached
snapshot's matching job when a snapshot exists and the write succeeds.
(The model is a total function: the store's catch branch could only be
reached if this fabrication itself threw.) -/
theorem c10_addCommentService_never_fails
    (jobId text : String) (ui : Option UserInfo) (uuid : String) (now : Nat)
    (cache : Option (List Job)) (saveOk : Bool) (c : Comment)
    (jobs : List Job) (job : Job)
    (huuid : isTemporary uuid = false)
    (hjob : job ∈ jobs) (hjid : job.id = jobId) :
    (addCommentService jobId text (.respond true c) ui uuid now cache
        saveOk).1 = c
    ∧ (addCommentService jobId text .thrown ui uuid now cache saveOk).1.text
        = text
    ∧ (addCommentService jobId text .thrown ui uuid now cache saveOk).1.id
        = uuid
    ∧ isTemporary (addCommentService jobId text .thrown ui uuid now cache
        saveOk).1.id = false
    ∧ (addCommentService jobId text (.respond false c) ui uuid now cache
        saveOk).1.text = text
    ∧ (addCommentService jobId text (.respond false c) ui uuid now cache
        saveOk).1.id = uuid
    ∧ ∃ job2 ∈ ((addCommentService jobId text .thrown ui uuid now
        (some jobs) true).2.getD []),
        job2.id = jobId
        ∧ (addCommentService jobId text .thrown ui uuid now (some jobs)
            true).1 ∈ job2.comments.getD [] := by
  refine ⟨rfl, rfl, rfl, huuid, rfl, rfl, ?_⟩
  simp only [addCommentService, Option.map_some, Option.getD_some]
  refine ⟨_, List.mem_map_of_mem _ hjob, ?_⟩
  rw [if_pos hjid]
  exact ⟨hjid, by simp⟩

/-- Witness for C10 at a concrete scenario: offline submission of "hey" on
job A with uuid `u-9`. -/
theorem c10_addCommentService_never_fails_witness :
    (addCommentService "A" "hey" (.respond true serverComment) none "u-9" 9
        (some [jobA]) true).1 = serverComment
    ∧ (addCommentService "A" "hey" .thrown none "u-9" 9 (some [jobA])
        true).1.text = "hey"
    ∧ (addCommentService "A" "hey" .thrown none "u-9" 9 (some [jobA])
        true).1.id = "u-9"
    ∧ isTemporary (addCommentService "A" "hey" .thrown none "u-9" 9
        (some [jobA]) true).1.id = false
    ∧ (addCommentService "A" "hey" (.respond false serverComment) none "u-9"
        9 (some [jobA]) true).1.text = "hey"
    ∧ (addCommentService "A" "hey" (.respond false serverComment) none "u-9"
        9 (some [jobA]) true).1.id = "u-9"
    ∧ ∃ job2 ∈ ((addCommentService "A" "hey" .thrown none "u-9" 9
        (some [jobA]) true).2.getD []),
        job2.id = "A"
        ∧ (addCommentService "A" "hey" .thrown none "u-9" 9 (some [jobA])
            true).1 ∈ job2.comments.getD [] :=
  c10_addCommentService_never_fails "A" "hey" none "u-9" 9 (some [jobA])
    true serverComment [jobA] jobA (by decide) (by decide) rfl
